import Mathlib

/-!
Verification of the `lcd` HD44780 4-bit GPIO driver (src/lcd.js).

The source file contains two successive rewrites of the same driver:
a callback-based variant (lines 1-305) and a promise-based variant
(lines 306-529).  Both share the protocol core: `_write4Bits` drives the
four data lines and pulses enable, `_send` frames a byte as two nibble
writes preceded by a register-select write, `init` runs the power-on
handshake, and the register-toggle operations recompute `displayControl`
/ `displayMode` and resend them.

The embedding models the GPIO side effects of each operation as a list
of events (`Ev`): pin-level writes, delays, and the completion signals
(callbacks / emitted events).  JavaScript 32-bit bitwise semantics
(`~x`, `x >> k`, `x & m`) are modelled on `Nat` with explicit 32-bit
masks where the source uses `~`.
-/

namespace Lcd

/-- One observable event of the driver: a register-select write, a data-line
write (`dW i v` drives data line `i` to level `v`), an enable-line write, a
delay in milliseconds, or a completion signal (callback invocation or emitted
event, identified by name). -/
inductive Ev where
  | rsW (v : Nat)
  | dW (i v : Nat)
  | eW (v : Nat)
  | delayMs (n : Nat)
  | signal (name : String)
deriving DecidableEq, Repr

/-- An event that touches the GPIO bus (RS, a data line, or enable). -/
def Ev.isBusWrite : Ev → Bool
  | .rsW _ => true
  | .dW _ _ => true
  | .eW _ => true
  | _ => false

/-- `_write4Bits(val)` (lcd.js:290-305): for `i = 0..3` write `(val >> i) & 1`
to data line `i`, then pulse enable: raise E, hold (`Q.delay(30)` /
`delay(30)`), lower E. -/
def write4Bits (val : Nat) : List Ev :=
  (List.range 4).map (fun i => .dW i ((val >>> i) &&& 1))
    ++ [.eW 1, .delayMs 30, .eW 0]

/-- `_send(val, mode)` (lcd.js:283-287 and 506-510): write `mode` to the
register-select line, then `_write4Bits(val >> 4)`, then `_write4Bits(val)`
(the second call receives the full byte; `_write4Bits` only reads its low
four bits). -/
def send (val mode : Nat) : List Ev :=
  .rsW mode :: (write4Bits (val >>> 4) ++ write4Bits val)

/-- `_command(cmd)` (lcd.js:277): `_send(cmd, 0)`. -/
def command (cmd : Nat) : List Ev := send cmd 0

/-- `_write(val)` (lcd.js:280): `_send(val, 1)`. -/
def writeData (val : Nat) : List Ev := send val 1

/-- The claim's description of one nibble write: data line `i` is driven to
bit `i` of the nibble (bit 0 to the first data line, bit 3 to the fourth),
then enable is raised, held, and lowered. -/
def nibbleFrame (v : Nat) : List Ev :=
  (List.range 4).map (fun i => .dW i (if v.testBit i then 1 else 0))
    ++ [.eW 1, .delayMs 30, .eW 0]

theorem bit_extract (n i : Nat) :
    (n >>> i) &&& 1 = if n.testBit i then 1 else 0 := by
  rcases Nat.mod_two_eq_zero_or_one (n / 2 ^ i) with h | h <;>
    simp [Nat.testBit_to_div_mod, Nat.and_one_is_mod, Nat.shiftRight_eq_div_pow, h]

theorem write4Bits_eq_nibbleFrame (val : Nat) :
    write4Bits val = nibbleFrame (val % 16) := by
  unfold write4Bits nibbleFrame
  congr 1
  apply List.map_congr_left
  intro i hi
  simp only [List.mem_range] at hi
  have h16 : (16 : Nat) = 2 ^ 4 := by norm_num
  rw [bit_extract, h16, Nat.testBit_mod_two_pow]
  simp [hi]

/-- A register-select write. -/
def Ev.isRs : Ev → Bool
  | .rsW _ => true
  | _ => false

/-- C3: For every byte and mode, sending a frame drives the register-select
line to the mode level (0 for Command, 1 for Data) and then performs exactly
two nibble writes, high nibble (`byte >> 4`) first and low nibble
(`byte % 16`) second, where each nibble write drives data line `i` to bit `i`
of the nibble before raising the enable line, holding it, and lowering it. -/
theorem C3_send_frames_two_nibbles (val mode : Nat) :
    send val mode
      = .rsW mode :: (nibbleFrame ((val >>> 4) % 16) ++ nibbleFrame (val % 16)) := by
  unfold send
  rw [write4Bits_eq_nibbleFrame, write4Bits_eq_nibbleFrame]

/-- The mutable controller state of one `Lcd` instance: the configuration
(`rows`, `largeFont`) and the two register bitfields. -/
structure State where
  rows : Nat
  largeFont : Bool
  displayControl : Nat
  displayMode : Nat
deriving DecidableEq, Repr

/-- Constructor defaults (lcd.js:63-64): `displayControl = 0x0c` (display on,
cursor off, blink off), `displayMode = 0x06` (left to right, no shift). -/
def mkState (rows : Nat) (largeFont : Bool) : State :=
  { rows := rows, largeFont := largeFont, displayControl := 0x0c, displayMode := 0x06 }

/-- The function-set byte computed in `init` (lcd.js:84-94 and 389-399):
start from `0x20`, OR in `0x08` when `rows > 1`, OR in `0x04` when
`rows === 1 && largeFont`. -/
def displayFunction (rows : Nat) (largeFont : Bool) : Nat :=
  let df := 0x20
  let df := if rows > 1 then df ||| 0x08 else df
  let df := if rows == 1 && largeFont then df ||| 0x04 else df
  df

/-- C6: the function-set byte equals `0x20`, OR'd with `0x08` exactly when
`rows > 1`, and OR'd with `0x04` exactly when `rows = 1` and `largeFont`,
the two optional bits contributed independently. -/
theorem C6_function_set (rows : Nat) (largeFont : Bool) :
    displayFunction rows largeFont
      = 0x20 ||| (if rows > 1 then 0x08 else 0)
             ||| (if rows = 1 ∧ largeFont = true then 0x04 else 0) := by
  unfold displayFunction
  rcases Nat.lt_trichotomy rows 1 with h | h | h
  · have h0 : rows = 0 := by omega
    cases largeFont <;> simp [h0]
  · cases largeFont <;> simp [h]
  · have h1 : rows ≠ 1 := by omega
    cases largeFont <;> simp [h, h1, Nat.ne_of_gt h]

/-- `init` (lcd.js:75-101): wait 16 ms, write nibbles `0x03`, `0x03`, `0x03`
with waits of 6 ms, 2 ms, 2 ms in between, write nibble `0x02`, then send the
function-set byte, `0x10`, `displayControl`, `displayMode`, the clear command
`0x01`, wait 3 ms, and emit `ready`. -/
def initTrace (s : State) : List Ev :=
  [.delayMs 16] ++ write4Bits 0x03
    ++ [.delayMs 6] ++ write4Bits 0x03
    ++ [.delayMs 2] ++ write4Bits 0x03
    ++ [.delayMs 2] ++ write4Bits 0x02
    ++ command (displayFunction s.rows s.largeFont)
    ++ command 0x10
    ++ command s.displayControl
    ++ command s.displayMode
    ++ command 0x01
    ++ [.delayMs 3, .signal "ready"]

/-- One step of the nibble-latch scan: a data-line write updates bit `i` of
the current 4-bit latch, an enable rising edge records the latched value. -/
def latchStep : Nat × List Nat → Ev → Nat × List Nat
  | (cur, out), .dW i v => ((cur &&& (15 ^^^ (1 <<< i))) ||| ((v &&& 1) <<< i), out)
  | (cur, out), .eW 1 => (cur, out ++ [cur])
  | acc, _ => acc

/-- The sequence of nibble values latched by the enable strobes of a trace,
starting from all data lines low. -/
def latchedNibbles (t : List Ev) : List Nat :=
  (t.foldl latchStep (0, [])).2

/-- C2: the initialization trace consists of exactly four nibble writes,
latching the values `0x03, 0x03, 0x03, 0x02` in that order, before any full
command byte (the first register-select write); the first is preceded by a
16 ms ≥ 15 ms delay, the second by 6 ms ≥ 4.1 ms, the third and fourth by
2 ms ≥ 160 µs; then the function-set byte, `0x10`, `displayControl`,
`displayMode` and clear (`0x01`) are sent, followed by a 3 ms ≥ 1.52 ms wait
before the `ready` signal. -/
theorem C2_init_sequence (s : State) :
    (initTrace s).takeWhile (fun e => !e.isRs)
        = [.delayMs 16] ++ write4Bits 0x03 ++ [.delayMs 6] ++ write4Bits 0x03
            ++ [.delayMs 2] ++ write4Bits 0x03 ++ [.delayMs 2] ++ write4Bits 0x02
    ∧ latchedNibbles ((initTrace s).takeWhile (fun e => !e.isRs)) = [3, 3, 3, 2]
    ∧ (initTrace s).dropWhile (fun e => !e.isRs)
        = command (displayFunction s.rows s.largeFont) ++ command 0x10
            ++ command s.displayControl ++ command s.displayMode
            ++ command 0x01 ++ [.delayMs 3, .signal "ready"]
    ∧ 15000 ≤ 16 * 1000 ∧ 4100 ≤ 6 * 1000 ∧ 160 ≤ 2 * 1000 ∧ 1520 ≤ 3 * 1000 := by
  refine ⟨?_, ?_, ?_, by norm_num, by norm_num, by norm_num, by norm_num⟩
  · simp [initTrace, command, send, write4Bits, Ev.isRs, List.takeWhile]
    decide
  · simp [initTrace, command, send, write4Bits, Ev.isRs, List.takeWhile,
      latchedNibbles, latchStep]
    decide
  · simp [initTrace, command, send, write4Bits, Ev.isRs, List.dropWhile]

/-- JavaScript `~x` for a 32-bit operand, as an unsigned 32-bit mask
(`~0x04 = 0xFFFFFFFB`, `~0x02 = 0xFFFFFFFD`, `~0x01 = 0xFFFFFFFE`),
matching the `__COMMANDS` `*_OFF` entries (lcd.js:11-27). -/
def jsNot32 (x : Nat) : Nat := 0xFFFFFFFF ^^^ x

/-- `display()` (lcd.js:168-171): set the display bit of `displayControl`
and resend it. -/
def display (s : State) : State × List Ev :=
  let dc := s.displayControl ||| 0x04
  ({ s with displayControl := dc }, command dc)

/-- `noDisplay()` (lcd.js:173-176): clear the display bit (`&= ~0x04`)
and resend. -/
def noDisplay (s : State) : State × List Ev :=
  let dc := s.displayControl &&& jsNot32 0x04
  ({ s with displayControl := dc }, command dc)

/-- `cursor()` (lcd.js:178-181). -/
def cursor (s : State) : State × List Ev :=
  let dc := s.displayControl ||| 0x02
  ({ s with displayControl := dc }, command dc)

/-- `noCursor()` (lcd.js:183-186). -/
def noCursor (s : State) : State × List Ev :=
  let dc := s.displayControl &&& jsNot32 0x02
  ({ s with displayControl := dc }, command dc)

/-- `blink()` (lcd.js:188-191). -/
def blink (s : State) : State × List Ev :=
  let dc := s.displayControl ||| 0x01
  ({ s with displayControl := dc }, command dc)

/-- `noBlink()` (lcd.js:193-196). -/
def noBlink (s : State) : State × List Ev :=
  let dc := s.displayControl &&& jsNot32 0x01
  ({ s with displayControl := dc }, command dc)

/-- `leftToRight()` (lcd.js:202-205). -/
def leftToRight (s : State) : State × List Ev :=
  let dm := s.displayMode ||| 0x02
  ({ s with displayMode := dm }, command dm)

/-- `rightToLeft()` (lcd.js:207-210). -/
def rightToLeft (s : State) : State × List Ev :=
  let dm := s.displayMode &&& jsNot32 0x02
  ({ s with displayMode := dm }, command dm)

/-- `autoscroll()` (lcd.js:212-215). -/
def autoscroll (s : State) : State × List Ev :=
  let dm := s.displayMode ||| 0x01
  ({ s with displayMode := dm }, command dm)

/-- `noAutoscroll()` (lcd.js:217-220). -/
def noAutoscroll (s : State) : State × List Ev :=
  let dm := s.displayMode &&& jsNot32 0x01
  ({ s with displayMode := dm }, command dm)

/-- C8 counterexample: from the constructor default `displayControl = 0x0c`
(display bit set), `display()` then `noDisplay()` leaves the display bit
(bit 2) clear, whereas it was set before the `display()` call — so the
round trip does not restore the pre-`display()` value of that bit. -/
theorem C8_counterexample :
    ((noDisplay (display (mkState 1 false)).1).1.displayControl).testBit 2 = false
    ∧ ((mkState 1 false).displayControl).testBit 2 = true := by
  decide

/-- C8 (amended): for every prior state, `display()` then `noDisplay()`
leaves the display bit of `displayControl` clear; that bit equals its
pre-`display()` value exactly when it was clear before the call. -/
theorem C8_display_roundtrip (s : State) :
    ((noDisplay (display s).1).1.displayControl).testBit 2 = false
    ∧ (((noDisplay (display s).1).1.displayControl).testBit 2
          = s.displayControl.testBit 2
       ↔ s.displayControl.testBit 2 = false) := by
  have h : ((s.displayControl ||| 0x04) &&& jsNot32 0x04).testBit 2 = false := by
    rw [Nat.testBit_and]
    have : (jsNot32 0x04).testBit 2 = false := by decide
    simp [this]
  refine ⟨h, ?_⟩
  simp only [noDisplay, display, mkState] at *
  rw [h]
  cases hb : s.displayControl.testBit 2 <;> simp [hb]

/-- The ten public toggle operations (lcd.js:168-220) that recompute
`displayControl` or `displayMode` by read-modify-write. -/
inductive ToggleOp where
  | display | noDisplay | cursor | noCursor | blink | noBlink
  | leftToRight | rightToLeft | autoscroll | noAutoscroll
deriving DecidableEq, Repr

/-- The state transition of a toggle operation. -/
def applyToggle (s : State) (op : ToggleOp) : State :=
  match op with
  | .display => (display s).1
  | .noDisplay => (noDisplay s).1
  | .cursor => (cursor s).1
  | .noCursor => (noCursor s).1
  | .blink => (blink s).1
  | .noBlink => (noBlink s).1
  | .leftToRight => (leftToRight s).1
  | .rightToLeft => (rightToLeft s).1
  | .autoscroll => (autoscroll s).1
  | .noAutoscroll => (noAutoscroll s).1

/-- The register well-formedness invariant of C10: `displayControl` is a
display-control command (`0x08`-`0x0f`) and `displayMode` an entry-mode
command (`0x04`-`0x07`). -/
def regInv (s : State) : Prop :=
  8 ≤ s.displayControl ∧ s.displayControl ≤ 15
    ∧ 4 ≤ s.displayMode ∧ s.displayMode ≤ 7

instance (s : State) : Decidable (regInv s) := by
  unfold regInv; infer_instance

theorem regInv_step_bits :
    (∀ dc : Fin 16, 8 ≤ (dc : Nat) →
       (8 ≤ ((dc : Nat) ||| 4) ∧ (dc : Nat) ||| 4 ≤ 15)
       ∧ (8 ≤ ((dc : Nat) &&& jsNot32 4) ∧ (dc : Nat) &&& jsNot32 4 ≤ 15)
       ∧ (8 ≤ ((dc : Nat) ||| 2) ∧ (dc : Nat) ||| 2 ≤ 15)
       ∧ (8 ≤ ((dc : Nat) &&& jsNot32 2) ∧ (dc : Nat) &&& jsNot32 2 ≤ 15)
       ∧ (8 ≤ ((dc : Nat) ||| 1) ∧ (dc : Nat) ||| 1 ≤ 15)
       ∧ (8 ≤ ((dc : Nat) &&& jsNot32 1) ∧ (dc : Nat) &&& jsNot32 1 ≤ 15))
    ∧ (∀ dm : Fin 8, 4 ≤ (dm : Nat) →
       (4 ≤ ((dm : Nat) ||| 2) ∧ (dm : Nat) ||| 2 ≤ 7)
       ∧ (4 ≤ ((dm : Nat) &&& jsNot32 2) ∧ (dm : Nat) &&& jsNot32 2 ≤ 7)
       ∧ (4 ≤ ((dm : Nat) ||| 1) ∧ (dm : Nat) ||| 1 ≤ 7)
       ∧ (4 ≤ ((dm : Nat) &&& jsNot32 1) ∧ (dm : Nat) &&& jsNot32 1 ≤ 7)) := by
  decide

theorem regInv_applyToggle (s : State) (op : ToggleOp) (h : regInv s) :
    regInv (applyToggle s op) := by
  obtain ⟨h1, h2, h3, h4⟩ := h
  have hdc : s.displayControl < 16 := by omega
  have hdm : s.displayMode < 8 := by omega
  have hc := regInv_step_bits.1 ⟨s.displayControl, hdc⟩ h1
  have hm := regInv_step_bits.2 ⟨s.displayMode, hdm⟩ h3
  cases op <;>
    simp only [applyToggle, display, noDisplay, cursor, noCursor, blink, noBlink,
      leftToRight, rightToLeft, autoscroll, noAutoscroll, regInv] <;>
    refine ⟨?_, ?_, ?_, ?_⟩ <;> simp_all

theorem regInv_foldl (ops : List ToggleOp) :
    ∀ s : State, regInv s → regInv (ops.foldl applyToggle s) := by
  induction ops with
  | nil => intro s h; exact h
  | cons op rest ih =>
      intro s h
      exact ih (applyToggle s op) (regInv_applyToggle s op h)

theorem bounded_bits :
    (∀ dc : Fin 16, 8 ≤ (dc : Nat) → Nat.testBit (dc : Nat) 3 = true)
    ∧ (∀ dm : Fin 8, 4 ≤ (dm : Nat) → Nat.testBit (dm : Nat) 2 = true) := by
  decide

/-- C10: starting from the constructor defaults `displayControl = 0x0c`,
`displayMode = 0x06`, every sequence of public toggle operations keeps
`displayControl` in `[0x08, 0x0f]` with bit `0x08` set (a well-formed
display-control command) and `displayMode` in `[0x04, 0x07]` with bit
`0x04` set (a well-formed entry-mode command). -/
theorem C10_register_invariant (rows : Nat) (largeFont : Bool) (ops : List ToggleOp) :
    let s := ops.foldl applyToggle (mkState rows largeFont)
    (8 ≤ s.displayControl ∧ s.displayControl ≤ 15
        ∧ s.displayControl.testBit 3 = true)
    ∧ (4 ≤ s.displayMode ∧ s.displayMode ≤ 7
        ∧ s.displayMode.testBit 2 = true) := by
  intro s
  have h0 : regInv (mkState rows largeFont) := by
    unfold regInv mkState; norm_num
  have h : regInv s := regInv_foldl ops (mkState rows largeFont) h0
  obtain ⟨h1, h2, h3, h4⟩ := h
  refine ⟨⟨h1, h2, ?_⟩, ⟨h3, h4, ?_⟩⟩
  · exact bounded_bits.1 ⟨s.displayControl, by omega⟩ h1
  · exact bounded_bits.2 ⟨s.displayMode, by omega⟩ h3

/-- `__ROW_OFFSETS` (lcd.js:9): row start addresses. -/
def ROW_OFFSETS : List Nat := [0x00, 0x40, 0x14, 0x54]

/-- The effective row computed by `setCursor` (lcd.js:163 and 428):
`row > this.rows ? this.rows - 1 : row` — the comparison is against `rows`,
not `rows - 1`. -/
def setCursorRow (rows row : Nat) : Nat :=
  if row > rows then rows - 1 else row

/-- The command byte sent by `setCursor` (lcd.js:165 and 430):
`0x80 | (col + __ROW_OFFSETS[r])`.  When `r` is beyond the table,
`__ROW_OFFSETS[r]` is JS `undefined`, `col + undefined` is `NaN`, and
`0x80 | NaN` is `0x80` (`ToInt32(NaN) = 0`). -/
def setCursorCmd (rows col row : Nat) : Nat :=
  match ROW_OFFSETS.get? (setCursorRow rows row) with
  | some off => 0x80 ||| (col + off)
  | none => 0x80

/-- `setCursor(col, row)` (lcd.js:162-166): a single command frame; there is
no validation and no error path. -/
def setCursor (s : State) (col row : Nat) : List Ev :=
  command (setCursorCmd s.rows col row)

/-- C5 counterexample: with `rows = 1` the claim requires every `row >
rows - 1 = 0` to be clamped to `0`, but `setCursor(0, 1)` uses effective row
`1` (offset `0x40`), because the code clamps only when `row > rows`.  The
command sent is `0x80 | 0x40 = 0xc0`, not `0x80`. -/
theorem C5_counterexample :
    1 > 1 - 1
    ∧ setCursorRow 1 1 ≠ 1 - 1
    ∧ setCursorCmd 1 0 1 = 0x80 ||| (0 + 0x40)
    ∧ setCursorCmd 1 0 1 ≠ 0x80 ||| (0 + 0x00) := by
  decide

/-- C5 (amended): the effective row equals `rows - 1` exactly when
`row > rows` (strictly greater than `rows`, not `rows - 1`; `row = rows`
passes through unclamped), the command byte is `0x80 | (col + offset)` for
the offset at the effective row, and `setCursor` is total — it never raises
an error, producing a command frame for every input. -/
theorem C5_setCursor_clamp (s : State) (col row : Nat) :
    (row > s.rows → setCursorRow s.rows row = s.rows - 1)
    ∧ (row ≤ s.rows → setCursorRow s.rows row = row)
    ∧ (∀ off, ROW_OFFSETS.get? (setCursorRow s.rows row) = some off →
        setCursor s col row = command (0x80 ||| (col + off))) := by
  refine ⟨?_, ?_, ?_⟩
  · intro h; simp [setCursorRow, h]
  · intro h; simp [setCursorRow, Nat.not_lt.mpr h]
  · intro off hoff
    simp only [setCursor, setCursorCmd, hoff]

theorem C5_setCursor_clamp_witness :
    (5 > 2 ∧ setCursorRow 2 5 = 2 - 1)
    ∧ (2 ≤ 2 ∧ setCursorRow 2 2 = 2)
    ∧ (ROW_OFFSETS.get? (setCursorRow 2 5) = some 0x40
        ∧ setCursor (mkState 2 false) 3 5 = command (0x80 ||| (3 + 0x40))) :=
  ⟨⟨by decide, (C5_setCursor_clamp (mkState 2 false) 3 5).1 (by decide)⟩,
   ⟨by decide, (C5_setCursor_clamp (mkState 2 false) 3 2).2.1 (by decide)⟩,
   ⟨by decide, (C5_setCursor_clamp (mkState 2 false) 3 5).2.2 0x40 (by decide)⟩⟩

/-- The start index computed by `print` (lcd.js:113-114 and 414-415):
`displayFills = floor(length / 80)`; start at `(displayFills - 1) * 80` when
`displayFills > 1`, else at `0`. -/
def printStartIndex (len : Nat) : Nat :=
  let displayFills := len / 80
  if displayFills > 1 then (displayFills - 1) * 80 else 0

/-- `_printChar` of the callback variant (lcd.js:121-146): once
`index >= str.length` it signals completion (the callback, or the `printed`
event) and stops; otherwise it writes `str.charCodeAt(index)` as a data byte
and recurses on `index + 1`. -/
def printChar (str : List Nat) (index : Nat) : List Ev :=
  if h : index ≥ str.length then [.signal "printed"]
  else writeData (str.get ⟨index, by omega⟩) ++ printChar str (index + 1)
termination_by str.length - index
decreasing_by omega

/-- `print(val)` of the callback variant (lcd.js:103-118): compute the start
index and run `_printChar` from there. -/
def printTrace (str : List Nat) : List Ev :=
  printChar str (printStartIndex str.length)

theorem printChar_eq (str : List Nat) (i : Nat) :
    printChar str i = ((str.drop i).flatMap writeData) ++ [.signal "printed"] := by
  by_cases h : i ≥ str.length
  · rw [printChar]
    simp [h, List.drop_eq_nil_of_le h]
  · rw [printChar]
    push_neg at h
    rw [List.drop_eq_getElem_cons h]
    simp only [Nat.not_le.mpr h, dif_neg, List.flatMap_cons, List.append_assoc]
    have ih := printChar_eq str (i + 1)
    simp [h, Nat.not_le.mpr h, ih, List.get_eq_getElem]
termination_by str.length - i
decreasing_by omega

/-- C4: for every text `t` with `L = length t` and `fills = L / 80`:
the transmission start index is `(fills - 1) * 80` when `fills > 1` and `0`
otherwise — in particular `0` for `L ≤ 80` (including `L = 80` exactly) and
`80` for `L = 161` — and the emitted trace is the characters from the start
index to the end, in order, each framed as a Data byte, followed by the
single completion signal. -/
theorem C4_print_truncation (t : List Nat) :
    (t.length / 80 > 1 → printStartIndex t.length = (t.length / 80 - 1) * 80)
    ∧ (t.length / 80 ≤ 1 → printStartIndex t.length = 0)
    ∧ (t.length ≤ 80 → printStartIndex t.length = 0)
    ∧ (t.length = 161 → printStartIndex t.length = 80)
    ∧ printTrace t
        = ((t.drop (printStartIndex t.length)).flatMap writeData) ++ [.signal "printed"] := by
  refine ⟨?_, ?_, ?_, ?_, printChar_eq t _⟩
  · intro h; simp [printStartIndex, h]
  · intro h; simp [printStartIndex, Nat.not_lt.mpr h]
  · intro h
    have : t.length / 80 ≤ 1 := Nat.div_le_div_right h
    simp [printStartIndex, Nat.not_lt.mpr this]
  · intro h; simp [printStartIndex, h]

set_option maxRecDepth 8000 in
theorem C4_print_truncation_witness :
    ((161 : Nat) / 80 > 1 ∧ printStartIndex 161 = ((161 : Nat) / 80 - 1) * 80)
    ∧ ((80 : Nat) ≤ 80 ∧ printStartIndex 80 = 0) :=
  ⟨⟨by decide, (C4_print_truncation (List.replicate 161 65)).1 (by decide)⟩,
   ⟨by decide, (C4_print_truncation (List.replicate 80 65)).2.2.1 (by decide)⟩⟩

/-- `str.charCodeAt(i)`: the code unit at `i`; out of range JS returns `NaN`,
and every bit-level use of `NaN` in `_write4Bits` (`>>`, `&`) goes through
`ToInt32(NaN) = 0`, so the driven levels equal those for byte `0`. -/
def charCodeAt (str : List Nat) (i : Nat) : Nat :=
  (str.get? i).getD 0

/-- `_printChar` of the promise variant (lcd.js:421):
`this._write(str.charCodeAt(index)).then(() => this._printChar(str, index + 1))`.
There is no comparison of `index` with `str.length`, no completion signal and
no base case; the model runs the recursion for `fuel` steps and reports
whether it ever completed (second component — it never does). -/
def printCharP : Nat → List Nat → Nat → List Ev × Bool
  | 0, _, _ => ([], false)
  | fuel + 1, str, index =>
      let rest := printCharP fuel str (index + 1)
      (writeData (charCodeAt str index) ++ rest.1, rest.2)

theorem printCharP_never_done (fuel : Nat) :
    ∀ str index, (printCharP fuel str index).2 = false
      ∧ (printCharP fuel str index).1.length = fuel * 15 := by
  induction fuel with
  | zero => intro str index; simp [printCharP]
  | succ n ih =>
      intro str index
      have h := ih str (index + 1)
      have hw : (writeData (charCodeAt str index)).length = 15 := by
        simp [writeData, send, write4Bits]
      refine ⟨by simp [printCharP, h.1], ?_⟩
      simp [printCharP, hw, h.2, Nat.succ_mul, Nat.add_comm]

set_option maxRecDepth 4000 in
/-- C9 (code bug in the promise variant): printing the one-character text
`"A"` ([65]) through the promise variant's `_printChar` never completes — for
every number of steps it is still running, having emitted one full data frame
(15 events) per step, far past the end of the text, and never signals
completion.  The callback variant, by contrast, stops after the last index
and signals `printed` exactly once, which is what the claim describes. -/
theorem C9_promise_print_never_terminates :
    (∀ fuel : Nat, (printCharP fuel [65] 0).2 = false
        ∧ (printCharP fuel [65] 0).1.length = fuel * 15)
    ∧ (printTrace [65]).count (Ev.signal "printed") = 1
    ∧ printTrace [65] = writeData 65 ++ [.signal "printed"] := by
  refine ⟨fun fuel => printCharP_never_done fuel [65] 0, ?_, ?_⟩
  · rw [printTrace, printChar_eq]
    decide
  · rw [printTrace, printChar_eq]
    decide

/-- The pins held by an instance: register select, enable, and the four data
pins (constructor, lcd.js:42-61). -/
inductive Pin where
  | rs | e | d (i : Nat)
deriving DecidableEq, Repr

/-- The unexport order of `close()` (lcd.js:222-231): the RS pin, the E pin,
then each data pin in index order. -/
def closeReleases : List Pin := [.rs, .e] ++ (List.range 4).map .d

/-- `close()` (lcd.js:222-231): releases the pins and nothing else — it
mutates no instance state; the source maintains no ready/closed flag and no
operation consults one. -/
def close (s : State) : State × List Pin := (s, closeReleases)

/-- The queued body of `clear()` (lcd.js:148-153 with `_commandAndDelay`,
lcd.js:250-274): send `0x01`, wait 3 ms, then signal (`cb` or the `clear`
event) and release the queue slot. -/
def clearTrace : List Ev := command 0x01 ++ [.delayMs 3, .signal "clear"]

/-- The queued body of `home()` (lcd.js:155-160). -/
def homeTrace : List Ev := command 0x02 ++ [.delayMs 3, .signal "home"]

/-- The public operation surface (lcd.js:103-231 without `close`). -/
inductive PubOp where
  | print (text : List Nat)
  | clear | home
  | setCursor (col row : Nat)
  | display | noDisplay | cursor | noCursor | blink | noBlink
  | scrollDisplayLeft | scrollDisplayRight
  | leftToRight | rightToLeft | autoscroll | noAutoscroll
deriving DecidableEq, Repr

/-- Which public operations are submitted through `_queueAsyncOperation`
(lcd.js:234-247): only `print` (lcd.js:104), `clear` (lcd.js:149) and `home`
(lcd.js:156) call it; every other operation calls `_command` directly. -/
def usesQueue : PubOp → Bool
  | .print _ => true
  | .clear => true
  | .home => true
  | _ => false

/-- The state transition and GPIO/signal trace of each public operation. -/
def opRun : PubOp → State → State × List Ev
  | .print t, s => (s, printTrace t)
  | .clear, s => (s, clearTrace)
  | .home, s => (s, homeTrace)
  | .setCursor col row, s => (s, setCursor s col row)
  | .display, s => display s
  | .noDisplay, s => noDisplay s
  | .cursor, s => cursor s
  | .noCursor, s => noCursor s
  | .blink, s => blink s
  | .noBlink, s => noBlink s
  | .scrollDisplayLeft, s => (s, command 0x18)
  | .scrollDisplayRight, s => (s, command 0x1c)
  | .leftToRight, s => leftToRight s
  | .rightToLeft, s => rightToLeft s
  | .autoscroll, s => autoscroll s
  | .noAutoscroll, s => noAutoscroll s

/-- C7 counterexample: `close()` leaves the instance state untouched (there
is no closed/ready flag to set), and `clear()` invoked on the post-`close`
state is not rejected — its very first event is a bus write (`RS` low), so it
touches the bus instead of failing with `NotReady`. -/
theorem C7_counterexample :
    (close (mkState 1 false)).1 = mkState 1 false
    ∧ (opRun .clear (close (mkState 1 false)).1).2.head? = some (.rsW 0)
    ∧ (opRun .clear (close (mkState 1 false)).1).2.any Ev.isBusWrite = true := by
  decide

/-- C7 (amended): `close()` releases the register-select pin, the enable pin,
and each of the 4 data pins exactly once; but operations invoked after
`close()` are not rejected with a `NotReady` error — `close` mutates no
state, no operation checks a ready flag, and an operation run after `close`
performs exactly its normal nonempty GPIO sequence on the released pins. -/
theorem C7_close_releases_once (s : State) :
    closeReleases = [.rs, .e, .d 0, .d 1, .d 2, .d 3]
    ∧ closeReleases.count .rs = 1 ∧ closeReleases.count .e = 1
    ∧ closeReleases.count (.d 0) = 1 ∧ closeReleases.count (.d 1) = 1
    ∧ closeReleases.count (.d 2) = 1 ∧ closeReleases.count (.d 3) = 1
    ∧ (close s).1 = s
    ∧ opRun .clear (close s).1 = opRun .clear s
    ∧ (opRun .clear s).2 ≠ [] := by
  refine ⟨by decide, by decide, by decide, by decide, by decide, by decide,
    by decide, rfl, rfl, by simp [opRun, clearTrace, command, send]⟩

/-- The `asyncOps` queue (lcd.js:66, 234-247) as seen by the event loop:
`ops` is the array of queued operations, each reduced to its remaining event
trace (the head entry is the in-flight operation), and `log` is the global
sequence of events performed so far. -/
structure Queue where
  ops : List (List Ev)
  log : List Ev
deriving DecidableEq, Repr

def emptyQueue : Queue := ⟨[], []⟩

/-- `_queueAsyncOperation` (lcd.js:234-235): `this.asyncOps.push(op)`.  The
drain loop (lcd.js:237-246) is already running unless the array was empty,
which the step function below covers uniformly. -/
def submit (t : List Ev) (q : Queue) : Queue :=
  { q with ops := q.ops ++ [t] }

/-- One event-loop step of the drain loop (lcd.js:238-245): the in-flight
head operation performs its next event; when its trace is exhausted its
`cb2` runs — `shift()` removes it and `next()` starts the next entry. -/
def qstep (q : Queue) : Queue :=
  match q.ops with
  | [] => q
  | [] :: rest => { q with ops := rest }
  | (e :: es) :: rest => { ops := es :: rest, log := q.log ++ [e] }

def qstepN : Nat → Queue → Queue
  | 0, q => q
  | k + 1, q => qstepN k (qstep q)

/-- Run the drain loop to completion and return the final event log. -/
def drainAux : List (List Ev) → List Ev → List Ev
  | [], log => log
  | [] :: rest, log => drainAux rest log
  | (e :: es) :: rest, log => drainAux (es :: rest) (log ++ [e])
termination_by ops _ => (ops.map List.length).sum + ops.length
decreasing_by
  all_goals simp

def drain (q : Queue) : List Ev := drainAux q.ops q.log

theorem drainAux_eq (ops : List (List Ev)) (log : List Ev) :
    drainAux ops log = log ++ ops.flatten := by
  match ops with
  | [] => simp [drainAux]
  | [] :: rest =>
      rw [drainAux, drainAux_eq rest log]
      simp
  | (e :: es) :: rest =>
      rw [drainAux, drainAux_eq (es :: rest) (log ++ [e])]
      simp
termination_by (ops.map List.length).sum + ops.length
decreasing_by
  all_goals simp

theorem qstep_inv (q : Queue) :
    (qstep q).log ++ (qstep q).ops.flatten = q.log ++ q.ops.flatten := by
  rcases hq : q.ops with _ | ⟨t, rest⟩
  · simp [qstep, hq]
  · rcases t with _ | ⟨e, es⟩ <;> simp [qstep, hq]

theorem qstepN_inv (k : Nat) :
    ∀ q : Queue, (qstepN k q).log ++ (qstepN k q).ops.flatten
      = q.log ++ q.ops.flatten := by
  induction k with
  | zero => intro q; rfl
  | succ n ih =>
      intro q
      calc (qstepN (n + 1) q).log ++ (qstepN (n + 1) q).ops.flatten
          = (qstepN n (qstep q)).log ++ (qstepN n (qstep q)).ops.flatten := rfl
        _ = (qstep q).log ++ (qstep q).ops.flatten := ih (qstep q)
        _ = q.log ++ q.ops.flatten := qstep_inv q

/-- C1 counterexample: `setCursor` performs GPIO side effects (its trace is
nonempty and starts with bus writes) yet is not submitted through
`_queueAsyncOperation` — it calls `_command` directly, so not every public
GPIO operation is serialized through the FIFO queue. -/
theorem C1_counterexample :
    usesQueue (.setCursor 0 0) = false
    ∧ (opRun (.setCursor 0 0) (mkState 1 false)).2 ≠ []
    ∧ (opRun (.setCursor 0 0) (mkState 1 false)).2.any Ev.isBusWrite = true := by
  decide

/-- C1 (amended): only `print`, `clear` and `home` are serialized through the
single FIFO operation queue; for two queued operations submitted in order, no
event of the second occurs before the full trace of the first (including its
trailing delay) completes, regardless of how many event-loop steps separate
the two submissions, and they complete in submission order.  The remaining
public operations (`setCursor`, `display`/`noDisplay`, `cursor`/`noCursor`,
`blink`/`noBlink`, the scrolls, `leftToRight`/`rightToLeft`,
`autoscroll`/`noAutoscroll`) bypass the queue. -/
theorem C1_queue_fifo (a b : List Ev) (k : Nat) (t : List Nat) (col row : Nat) :
    drain (submit b (qstepN k (submit a emptyQueue))) = a ++ b
    ∧ usesQueue (.print t) = true ∧ usesQueue .clear = true ∧ usesQueue .home = true
    ∧ usesQueue (.setCursor col row) = false
    ∧ usesQueue .display = false ∧ usesQueue .noDisplay = false
    ∧ usesQueue .cursor = false ∧ usesQueue .noCursor = false
    ∧ usesQueue .blink = false ∧ usesQueue .noBlink = false
    ∧ usesQueue .scrollDisplayLeft = false ∧ usesQueue .scrollDisplayRight = false
    ∧ usesQueue .leftToRight = false ∧ usesQueue .rightToLeft = false
    ∧ usesQueue .autoscroll = false ∧ usesQueue .noAutoscroll = false := by
  refine ⟨?_, rfl, rfl, rfl, rfl, rfl, rfl, rfl, rfl, rfl, rfl, rfl, rfl,
    rfl, rfl, rfl, rfl⟩
  have h1 := qstepN_inv k (submit a emptyQueue)
  have h2 : (submit a emptyQueue).log ++ (submit a emptyQueue).ops.flatten = a := by
    simp [submit, emptyQueue]
  have key : drain (submit b (qstepN k (submit a emptyQueue)))
      = ((qstepN k (submit a emptyQueue)).log
          ++ ((qstepN k (submit a emptyQueue)).ops ++ [b]).flatten) := drainAux_eq _ _
  rw [key, List.flatten_append, ← List.append_assoc, h1, h2]
  simp

end Lcd
